import Mathlib

/-!
A shallow embedding of osctl, `kakfa/main.go`.

The program is glue around the sarama Kafka client library.  The embedding keeps the
program text (the methods of `KafkaClient` and of `ConsumerGroupHandler`) and treats the
library as the environment:

* a library handle is a record of the answers the library gives to the calls the program
  makes on it (`Client`, `ClusterAdmin`, `SyncProducer`), a Go result pair `(value, err)`
  being a Lean pair whose second component is `none` for `nil`;
* the two blocking loops (`StartConsumerGroup`, `ConsumeClaim`) read the outcomes of their
  successive `select` statements and `Consume` calls from lists; a list that ends leaves
  the loop blocked at that point;
* every method returns, next to its Go result, the trace of the library calls it issued
  and of the lines it logged, in program order, and the client as the method leaves it
  (`kc.config` is a pointer: a write through an alias of it is a write to the client).

Machine integers are `Int` with explicit wrap-around to 64 bits.
-/

namespace Osctl

/-! ## Go values -/

/-- Go `error` values: an error reported by the library, or `fmt.Errorf("<msg>: %w", err)`. -/
inductive Error where
  | lib (text : String)
  | errorf (format : String) (cause : Error)
deriving DecidableEq, Repr

/-- A Go `error` result: `none` is `nil`. -/
abbrev GoError := Option Error

/-- Two's-complement wrap of an integer to `int64`. -/
def wrap64 (x : Int) : Int := (x + 2 ^ 63) % 2 ^ 64 - 2 ^ 63

/-- Go `a + b` on `int64`. -/
def add64 (a b : Int) : Int := wrap64 (a + b)

/-- Go `a - b` on `int64`. -/
def sub64 (a b : Int) : Int := wrap64 (a - b)

/-- The values an `int64` can hold. -/
def isInt64 (x : Int) : Prop := -(2 ^ 63) ≤ x ∧ x < 2 ^ 63

instance (x : Int) : Decidable (isInt64 x) := by unfold isInt64; infer_instance

/-! ## The library surface the program uses (sarama) -/

/-- The library type `sarama.KafkaVersion`, four version numbers. -/
structure KafkaVersion where
  major : Nat
  minor : Nat
  veryMinor : Nat
  patch : Nat
deriving DecidableEq, Repr

/-- The library type `sarama.BalanceStrategy`, by the constructor that built it. -/
inductive BalanceStrategy where
  | range
  | roundRobin
  | sticky
deriving DecidableEq, Repr

/-- Fields `Config.Net.SASL.*` the program writes. -/
structure SASLConfig where
  Enable : Bool
  Mechanism : String
  User : String
  Password : String
deriving DecidableEq, Repr

/-- Fields `Config.Net.*` the program writes. -/
structure NetConfig where
  MaxOpenRequests : Int
  SASL : SASLConfig
deriving DecidableEq, Repr

/-- Fields `Config.Producer.Return.*` (`Successes` is written by the program, `Errors` is
read by the library when it opens a synchronous producer). -/
structure ProducerReturnConfig where
  Successes : Bool
  Errors : Bool
deriving DecidableEq, Repr

/-- Fields `Config.Producer.Retry.*` the program writes. -/
structure ProducerRetryConfig where
  Max : Int
deriving DecidableEq, Repr

/-- Fields `Config.Producer.*` the program writes. -/
structure ProducerConfig where
  RequiredAcks : Int
  Compression : Int
  Idempotent : Bool
  Retry : ProducerRetryConfig
  Return : ProducerReturnConfig
deriving DecidableEq, Repr

/-- Fields `Config.Consumer.*` the program writes
(`Group.Rebalance.Strategy`, `Offsets.Initial`, `Return.Errors`). -/
structure ConsumerConfig where
  GroupRebalanceStrategy : Option BalanceStrategy
  OffsetsInitial : Int
  ReturnErrors : Bool
deriving DecidableEq, Repr

/-- The object a `*sarama.Config` points to, restricted to the fields the program writes. -/
structure Config where
  Net : NetConfig
  Producer : ProducerConfig
  Consumer : ConsumerConfig
  Version : KafkaVersion
deriving DecidableEq, Repr

namespace Sarama

/-- Library constant `sarama.V4_0_0_0`. -/
def V4_0_0_0 : KafkaVersion := ⟨4, 0, 0, 0⟩

/-- Library constant `sarama.V0_11_0_0`. -/
def V0_11_0_0 : KafkaVersion := ⟨0, 11, 0, 0⟩

/-- Library constant `sarama.V2_1_0_0`, the library default version. -/
def V2_1_0_0 : KafkaVersion := ⟨2, 1, 0, 0⟩

/-- Library constant `sarama.WaitForLocal` (`RequiredAcks`). -/
def WaitForLocal : Int := 1

/-- Library constant `sarama.WaitForAll` (`RequiredAcks`). -/
def WaitForAll : Int := -1

/-- Library constant `sarama.CompressionNone`. -/
def CompressionNone : Int := 0

/-- Library constant `sarama.CompressionSnappy`. -/
def CompressionSnappy : Int := 2

/-- Library constant `sarama.OffsetNewest`. -/
def OffsetNewest : Int := -1

/-- Library constant `sarama.OffsetOldest`. -/
def OffsetOldest : Int := -2

/-- Library constant `sarama.SASLTypePlaintext`. -/
def SASLTypePlaintext : String := "PLAIN"

/-- Library function `sarama.NewConfig()`: the library defaults of the modelled fields. -/
def NewConfig : Config :=
  { Net := { MaxOpenRequests := 5,
             SASL := { Enable := false, Mechanism := "", User := "", Password := "" } },
    Producer := { RequiredAcks := WaitForLocal, Compression := CompressionNone,
                  Idempotent := false, Retry := { Max := 3 },
                  Return := { Successes := false, Errors := true } },
    Consumer := { GroupRebalanceStrategy := none, OffsetsInitial := OffsetNewest,
                  ReturnErrors := false },
    Version := V2_1_0_0 }

/-- Library method `KafkaVersion.IsAtLeast`: lexicographic comparison of the four numbers. -/
def IsAtLeast (v other : KafkaVersion) : Bool :=
  decide (other.major < v.major) ||
  (v.major == other.major &&
    (decide (other.minor < v.minor) ||
    (v.minor == other.minor &&
      (decide (other.veryMinor < v.veryMinor) ||
      (v.veryMinor == other.veryMinor && decide (other.patch ≤ v.patch))))))

end Sarama

/-- The library type `sarama.ProducerMessage`, the fields the program sets
(`Key` and `Value` are `sarama.StringEncoder` of a string). -/
structure ProducerMessage where
  Topic : String
  Key : String
  Value : String
deriving DecidableEq, Repr

/-- The library type `sarama.ConsumerMessage`, the fields the handler reads. -/
structure ConsumerMessage where
  Topic : String
  Partition : Int
  Offset : Int
  Key : String
  Value : String
  Timestamp : Int
  Headers : List (String × String)
deriving DecidableEq, Repr

/-- One member of a described group (`sarama.GroupMemberDescription`). -/
structure GroupMemberDescription where
  ClientId : String
  ClientHost : String
deriving DecidableEq, Repr

/-- One described group (`sarama.GroupDescription`); `Members` is the Go map as a list in
the order the `range` statement visits it. -/
structure GroupDescription where
  State : String
  ProtocolType : String
  Protocol : String
  Members : List (String × GroupMemberDescription)
deriving DecidableEq, Repr

/-- The program type `ConsumerGroupHandler`. -/
structure ConsumerGroupHandler where
  name : String
deriving DecidableEq, Repr

/-- The answers of a `sarama.SyncProducer`: `SendMessage` returns `(partition, offset, err)`. -/
structure SyncProducer where
  SendMessage : ProducerMessage → Int × Int × GoError

/-- The answers of a `sarama.Client`.  `Partitions` and `GetOffset` return a Go pair
`(value, err)` whose value the program uses whatever `err` is. -/
structure Client where
  Topics : Except Error (List String)
  Partitions : String → List Int × GoError
  GetOffset : String → Int → Int → Int × GoError

/-- The answers of a `sarama.ClusterAdmin`; the map of `ListConsumerGroups` is a list in
the order the `range` statement visits it. -/
structure ClusterAdmin where
  ListConsumerGroups : Except Error (List (String × String))
  DescribeConsumerGroups : List String → Except Error (List GroupDescription)

/-- The answers of a `sarama.ConsumerGroup`: the results of its successive `Consume`
calls; a call beyond the end of the list does not return. -/
structure ConsumerGroup where
  Consume : List GoError

/-- A `context.Context` as a polling loop sees it: what its successive `select`
statements find on `ctx.Done()` (`true`: the channel is closed); beyond the end of the
list the loop has not got that far. -/
abbrev Context := List Bool

/-- What one `select` of `ConsumeClaim` takes: a value from `claim.Messages()` (`none` is
the nil pointer, which a closed channel yields), or `session.Context().Done()`. -/
inductive SelectOutcome where
  | message (m : Option ConsumerMessage)
  | done
deriving DecidableEq, Repr

/-- The constructors of the library that open a connection. -/
structure Library where
  NewClient : List String → Config → Except Error Client
  NewSyncProducer : List String → Config → Except Error SyncProducer
  NewClusterAdmin : List String → Config → Except Error ClusterAdmin
  NewConsumerGroup : List String → String → Config → Except Error ConsumerGroup

/-! ## Observable effects -/

/-- The lines the program logs, one constructor per `log.Printf` / `log.Println` site
(the eight lines `ConsumeClaim` prints for a record are the one constructor `received`). -/
inductive LogLine where
  | sessionStarted (name : String)
  | sessionEnded (name : String)
  | received (name : String) (msg : ConsumerMessage)
  | topicsHeader
  | topicSummary (topic : String) (partitions : Nat) (totalMessages : Int)
  | topicsFooter
  | messageSent (partition offset : Int)
  | topicInfoHeader (topic : String)
  | partitionInfo (partition count oldest last : Int)
  | topicTotal (totalMessages : Int)
  | topicInfoFooter
  | groupStarted (groupID : String) (topics : List String)
  | groupStopped (groupID : String)
  | consumeFailed (groupID : String) (err : Error)
  | groupsHeader
  | noGroups
  | groupLine (groupID groupType : String)
  | groupsFooter
  | groupDetailHeader (groupID : String)
  | groupState (state : String)
  | groupProtocolType (protocolType : String)
  | groupProtocol (protocol : String)
  | groupMemberCount (n : Nat)
  | groupMember (memberID clientId clientHost : String)
  | groupDetailFooter
deriving DecidableEq, Repr

/-- The library calls the program issues and the lines it logs. -/
inductive Event where
  | newClient (brokers : List String) (cfg : Config)
  | topics
  | partitions (topic : String)
  | getOffset (topic : String) (partition time : Int)
  | clientClose
  | newSyncProducer (brokers : List String) (cfg : Config)
  | producerSend (msg : ProducerMessage)
  | newClusterAdmin (brokers : List String) (cfg : Config)
  | listConsumerGroups
  | describeConsumerGroups (groups : List String)
  | adminClose
  | newConsumerGroup (brokers : List String) (groupID : String) (cfg : Config)
  | consume (topics : List String) (handler : ConsumerGroupHandler)
  | groupClose
  | markMessage (msg : ConsumerMessage) (metadata : String)
  | log (line : LogLine)
deriving DecidableEq, Repr

/-! ## The program -/

/-- The program type `KafkaClient`; `config` is the object the field points to. -/
structure KafkaClient where
  brokers : List String
  username : String
  password : String
  config : Config
deriving DecidableEq, Repr

/-- What a method of `KafkaClient` leaves behind: its Go result, the client after the
call, and the trace of its library calls and log lines. -/
structure Outcome (α : Type) where
  ret : α
  client : KafkaClient
  trace : List Event

/-- Go `NewKafkaClient` (main.go 94-104). -/
def NewKafkaClient (broker : List String) (username password : String) : KafkaClient :=
  let cfg := Sarama.NewConfig
  let cfg := { cfg with Version := Sarama.V4_0_0_0 }
  let cfg :=
    if username ≠ "" then
      let cfg := { cfg with Net.SASL.Enable := true }
      let cfg := { cfg with Net.SASL.User := username }
      let cfg := { cfg with Net.SASL.Password := password }
      { cfg with Net.SASL.Mechanism := Sarama.SASLTypePlaintext }
    else cfg
  { brokers := broker, username := username, password := password, config := cfg }

/-- The six assignments of `NewProducer` (main.go 109-114) on the object `cfg` points to. -/
def producerSettings (cfg : Config) : Config :=
  let cfg := { cfg with Producer.Return.Successes := true }
  let cfg := { cfg with Producer.RequiredAcks := Sarama.WaitForAll }
  let cfg := { cfg with Producer.Idempotent := true }
  let cfg := { cfg with Producer.Retry.Max := 10 }
  let cfg := { cfg with Producer.Compression := Sarama.CompressionSnappy }
  { cfg with Net.MaxOpenRequests := 1 }

/-- Go `KafkaClient.NewProducer` (main.go 107-116): `cfg := kc.config` copies the pointer,
so the assignments land in the object the client holds. -/
def NewProducer (lib : Library) (kc : KafkaClient) : Outcome (Except Error SyncProducer) :=
  let cfg := producerSettings kc.config
  { ret := lib.NewSyncProducer kc.brokers cfg,
    client := { kc with config := cfg },
    trace := [Event.newSyncProducer kc.brokers cfg] }

/-- Go `KafkaClient.SendMessage` (main.go 118-130). -/
def SendMessage (kc : KafkaClient) (producer : SyncProducer) (topic key value : String) :
    Outcome GoError :=
  let msg : ProducerMessage := { Topic := topic, Key := key, Value := value }
  match producer.SendMessage msg with
  | (_, _, some err) =>
    { ret := some err, client := kc, trace := [Event.producerSend msg] }
  | (partition, offset, none) =>
    { ret := none, client := kc,
      trace := [Event.producerSend msg, Event.log (LogLine.messageSent partition offset)] }

/-- Go `ConsumerGroupHandler.Setup` (main.go 28-31). -/
def ConsumerGroupHandler.Setup (h : ConsumerGroupHandler) : GoError × List Event :=
  (none, [Event.log (LogLine.sessionStarted h.name)])

/-- Go `ConsumerGroupHandler.Cleanup` (main.go 34-37). -/
def ConsumerGroupHandler.Cleanup (h : ConsumerGroupHandler) : GoError × List Event :=
  (none, [Event.log (LogLine.sessionEnded h.name)])

/-- Go `ConsumerGroupHandler.ConsumeClaim` (main.go 40-64) on the outcomes of its
successive `select` statements.  The first component is `none` while the handler is
blocked in a `select`, `some r` once it has returned `r`. -/
def ConsumerGroupHandler.ConsumeClaim (h : ConsumerGroupHandler) :
    List SelectOutcome → Option GoError × List Event
  | [] => (none, [])
  | SelectOutcome.message none :: _ => (some none, [])
  | SelectOutcome.message (some message) :: rest =>
    let r := ConsumerGroupHandler.ConsumeClaim h rest
    (r.1, Event.log (LogLine.received h.name message) :: Event.markMessage message "" :: r.2)
  | SelectOutcome.done :: _ => (some none, [])

/-- The inner loop of `ListAllTopics` (main.go 82-86): the running `totalMessages` and
the offset lookups issued. -/
def listPartitionsLoop (client : Client) (topic : String) :
    List Int → Int → Int × List Event
  | [], totalMessages => (totalMessages, [])
  | p :: ps, totalMessages =>
    let oldest := (client.GetOffset topic p Sarama.OffsetOldest).1
    let newest := (client.GetOffset topic p Sarama.OffsetNewest).1
    let totalMessages := add64 totalMessages (sub64 newest oldest)
    let r := listPartitionsLoop client topic ps totalMessages
    (r.1, Event.getOffset topic p Sarama.OffsetOldest ::
          Event.getOffset topic p Sarama.OffsetNewest :: r.2)

/-- The outer loop of `ListAllTopics` (main.go 79-88). -/
def listTopicsLoop (client : Client) : List String → List Event
  | [] => []
  | topic :: topics =>
    let partitions := (client.Partitions topic).1
    let r := listPartitionsLoop client topic partitions 0
    Event.partitions topic :: r.2 ++
      Event.log (LogLine.topicSummary topic partitions.length r.1) ::
      listTopicsLoop client topics

/-- Go `KafkaClient.ListAllTopics` (main.go 66-91). -/
def ListAllTopics (lib : Library) (kc : KafkaClient) : Outcome GoError :=
  match lib.NewClient kc.brokers kc.config with
  | Except.error err =>
    { ret := some (Error.errorf "创建客户端失败: %w" err), client := kc,
      trace := [Event.newClient kc.brokers kc.config] }
  | Except.ok client =>
    match client.Topics with
    | Except.error err =>
      { ret := some (Error.errorf "获取 topics 失败: %w" err), client := kc,
        trace := [Event.newClient kc.brokers kc.config, Event.topics, Event.clientClose] }
    | Except.ok topics =>
      { ret := none, client := kc,
        trace := Event.newClient kc.brokers kc.config :: Event.topics ::
          Event.log LogLine.topicsHeader :: listTopicsLoop client topics ++
          [Event.log LogLine.topicsFooter, Event.clientClose] }

/-- The loop of `GetTopicInfo` (main.go 146-153). -/
def topicInfoLoop (client : Client) (topic : String) :
    List Int → Int → Int × List Event
  | [], totalMessages => (totalMessages, [])
  | partition :: ps, totalMessages =>
    let oldest := (client.GetOffset topic partition Sarama.OffsetOldest).1
    let newest := (client.GetOffset topic partition Sarama.OffsetNewest).1
    let count := sub64 newest oldest
    let totalMessages := add64 totalMessages count
    let r := topicInfoLoop client topic ps totalMessages
    (r.1, Event.getOffset topic partition Sarama.OffsetOldest ::
          Event.getOffset topic partition Sarama.OffsetNewest ::
          Event.log (LogLine.partitionInfo partition count oldest (sub64 newest 1)) :: r.2)

/-- Go `KafkaClient.GetTopicInfo` (main.go 132-158). -/
def GetTopicInfo (lib : Library) (kc : KafkaClient) (topic : String) : Outcome GoError :=
  match lib.NewClient kc.brokers kc.config with
  | Except.error err =>
    { ret := some (Error.errorf "创建客户端失败:%w" err), client := kc,
      trace := [Event.newClient kc.brokers kc.config] }
  | Except.ok client =>
    match client.Partitions topic with
    | (_, some err) =>
      { ret := some (Error.errorf "获取分区失败: %w" err), client := kc,
        trace := [Event.newClient kc.brokers kc.config, Event.partitions topic,
          Event.clientClose] }
    | (partitions, none) =>
      let r := topicInfoLoop client topic partitions 0
      { ret := none, client := kc,
        trace := Event.newClient kc.brokers kc.config :: Event.partitions topic ::
          Event.log (LogLine.topicInfoHeader topic) :: r.2 ++
          [Event.log (LogLine.topicTotal r.1), Event.log LogLine.topicInfoFooter,
           Event.clientClose] }

/-- The three assignments of `NewConsumerGroup` (main.go 162-164) on the object `cfg`
points to. -/
def consumerSettings (cfg : Config) : Config :=
  let cfg := { cfg with Consumer.GroupRebalanceStrategy := some BalanceStrategy.roundRobin }
  let cfg := { cfg with Consumer.OffsetsInitial := Sarama.OffsetOldest }
  { cfg with Consumer.ReturnErrors := true }

/-- Go `KafkaClient.NewConsumerGroup` (main.go 160-167); `cfg := kc.config` copies the
pointer as in `NewProducer`. -/
def NewConsumerGroup (lib : Library) (kc : KafkaClient) (groupID : String) :
    Outcome (Except Error ConsumerGroup) :=
  let cfg := consumerSettings kc.config
  { ret := lib.NewConsumerGroup kc.brokers groupID cfg,
    client := { kc with config := cfg },
    trace := [Event.newConsumerGroup kc.brokers groupID cfg] }

/-- The run loop of `StartConsumerGroup` (main.go 188-199) on what its successive
`select` statements find on `ctx.Done()` and on the results of its successive `Consume`
calls.  The first component is `none` while the loop has not returned. -/
def consumeLoop (groupID : String) (topics : List String) (handler : ConsumerGroupHandler) :
    Context → List GoError → Option GoError × List Event
  | [], _ => (none, [])
  | true :: _, _ => (some none, [Event.log (LogLine.groupStopped groupID)])
  | false :: _, [] => (none, [Event.consume topics handler])
  | false :: _, some err :: _ =>
    (some (some err), [Event.consume topics handler,
      Event.log (LogLine.consumeFailed groupID err)])
  | false :: ctx, none :: results =>
    let r := consumeLoop groupID topics handler ctx results
    (r.1, Event.consume topics handler :: r.2)

/-- Go `KafkaClient.StartConsumerGroup` (main.go 169-200).  The result is `none` while
the method has not returned; the deferred `Close` runs when it returns.  The goroutine
that logs the values of `consumerGroup.Errors()` runs beside the loop and is left out. -/
def StartConsumerGroup (lib : Library) (kc : KafkaClient) (groupID : String)
    (topics : List String) (ctx : Context) : Outcome (Option GoError) :=
  let o := NewConsumerGroup lib kc groupID
  match o.ret with
  | Except.error err =>
    { ret := some (some (Error.errorf "创建消费者组失败: %w" err)), client := o.client,
      trace := o.trace }
  | Except.ok consumerGroup =>
    let handler : ConsumerGroupHandler := { name := groupID }
    let r := consumeLoop groupID topics handler ctx consumerGroup.Consume
    { ret := r.1, client := o.client,
      trace := o.trace ++ Event.log (LogLine.groupStarted groupID topics) :: r.2 ++
        (if r.1.isSome then [Event.groupClose] else []) }

/-- Go `KafkaClient.ListConsumerGroups` (main.go 212-234). -/
def ListConsumerGroups (lib : Library) (kc : KafkaClient) : Outcome GoError :=
  match lib.NewClusterAdmin kc.brokers kc.config with
  | Except.error err =>
    { ret := some (Error.errorf "创建管理客户端失败: %w" err), client := kc,
      trace := [Event.newClusterAdmin kc.brokers kc.config] }
  | Except.ok admin =>
    match admin.ListConsumerGroups with
    | Except.error err =>
      { ret := some (Error.errorf "获取消费者组失败: %w" err), client := kc,
        trace := [Event.newClusterAdmin kc.brokers kc.config, Event.listConsumerGroups,
          Event.adminClose] }
    | Except.ok groups =>
      { ret := none, client := kc,
        trace := Event.newClusterAdmin kc.brokers kc.config :: Event.listConsumerGroups ::
          Event.log LogLine.groupsHeader ::
          (if groups.length = 0 then [Event.log LogLine.noGroups]
           else groups.map (fun g => Event.log (LogLine.groupLine g.1 g.2))) ++
          [Event.log LogLine.groupsFooter, Event.adminClose] }

/-- The lines `DescribeConsumerGroup` logs for one group (main.go 250-259). -/
def describeGroupLines (group : GroupDescription) : List Event :=
  Event.log (LogLine.groupState group.State) ::
  Event.log (LogLine.groupProtocolType group.ProtocolType) ::
  Event.log (LogLine.groupProtocol group.Protocol) ::
  Event.log (LogLine.groupMemberCount group.Members.length) ::
  group.Members.map (fun m => Event.log (LogLine.groupMember m.1 m.2.ClientId m.2.ClientHost))

/-- Go `KafkaClient.DescribeConsumerGroup` (main.go 236-263). -/
def DescribeConsumerGroup (lib : Library) (kc : KafkaClient) (groupID : String) :
    Outcome GoError :=
  match lib.NewClusterAdmin kc.brokers kc.config with
  | Except.error err =>
    { ret := some (Error.errorf "创建管理客户端失败: %w" err), client := kc,
      trace := [Event.newClusterAdmin kc.brokers kc.config] }
  | Except.ok admin =>
    match admin.DescribeConsumerGroups [groupID] with
    | Except.error err =>
      { ret := some (Error.errorf "获取消费者组详情失败: %w" err), client := kc,
        trace := [Event.newClusterAdmin kc.brokers kc.config,
          Event.describeConsumerGroups [groupID], Event.adminClose] }
    | Except.ok groups =>
      { ret := none, client := kc,
        trace := Event.newClusterAdmin kc.brokers kc.config ::
          Event.describeConsumerGroups [groupID] ::
          Event.log (LogLine.groupDetailHeader groupID) ::
          (groups.map describeGroupLines).flatten ++
          [Event.log LogLine.groupDetailFooter, Event.adminClose] }

/-! ## Reading a trace -/

/-- The lines of a trace, in order. -/
def logged : List Event → List LogLine
  | [] => []
  | Event.log line :: es => line :: logged es
  | _ :: es => logged es

/-- The messages a trace sends on a producer, in order. -/
def sends : List Event → List ProducerMessage
  | [] => []
  | Event.producerSend msg :: es => msg :: sends es
  | _ :: es => sends es

/-- The records a trace marks, in order. -/
def marks : List Event → List ConsumerMessage
  | [] => []
  | Event.markMessage msg _ :: es => msg :: marks es
  | _ :: es => marks es

/-- The number of `Consume` calls in a trace. -/
def consumeCalls : List Event → Nat
  | [] => 0
  | Event.consume _ _ :: es => consumeCalls es + 1
  | _ :: es => consumeCalls es

/-- The oldest offset the client reports for a partition (the value of the Go pair). -/
def oldestOffset (client : Client) (topic : String) (p : Int) : Int :=
  (client.GetOffset topic p Sarama.OffsetOldest).1

/-- The newest offset the client reports for a partition (the value of the Go pair). -/
def newestOffset (client : Client) (topic : String) (p : Int) : Int :=
  (client.GetOffset topic p Sarama.OffsetNewest).1

/-- The message count as the specification words it: the sum over the partitions of
`newestOffset - oldestOffset`, in the integers. -/
def messageCount (client : Client) (topic : String) (partitions : List Int) : Int :=
  (partitions.map (fun p => newestOffset client topic p - oldestOffset client topic p)).sum

/-! ## Concrete environments -/

/-- A library whose metadata connection is `client`, and whose other connections open
and answer with empty results. -/
def libraryOf (client : Client) : Library :=
  { NewClient := fun _ _ => Except.ok client,
    NewSyncProducer := fun _ _ => Except.ok { SendMessage := fun _ => (0, 0, none) },
    NewClusterAdmin := fun _ _ =>
      Except.ok { ListConsumerGroups := Except.ok [],
                  DescribeConsumerGroups := fun _ => Except.ok [] },
    NewConsumerGroup := fun _ _ _ => Except.ok { Consume := [] } }

/-- One topic `t` with partitions 0 and 1; partition `p` holds offsets `p` to `p + 5`. -/
def healthyClient : Client :=
  { Topics := Except.ok ["t"],
    Partitions := fun _ => ([0, 1], none),
    GetOffset := fun _ p time =>
      if time = Sarama.OffsetOldest then (p, none) else (p + 5, none) }

/-- One topic `t` with partition 0, oldest offset 5; the lookup of the newest offset
fails and returns `-1` beside its error, as the library does. -/
def lostNewestClient : Client :=
  { Topics := Except.ok ["t"],
    Partitions := fun _ => ([0], none),
    GetOffset := fun _ _ time =>
      if time = Sarama.OffsetOldest then (5, none)
      else (-1, some (Error.lib "kafka: broker not connected")) }

/-- The client of `main`, without credentials. -/
def plainClient : KafkaClient := NewKafkaClient ["b1:9092"] "" ""

/-- Library constant `sarama.V0_10_0_0`. -/
def Sarama.V0_10_0_0 : KafkaVersion := ⟨0, 10, 0, 0⟩

/-- Library constant `sarama.CompressionLZ4`. -/
def Sarama.CompressionLZ4 : Int := 3

/-- Library constant `sarama.CompressionZSTD`. -/
def Sarama.CompressionZSTD : Int := 4

/-- The checks of the library method `Config.Validate` under `Producer.Idempotent`: the
version is at least `V0_11_0_0`, `Producer.Retry.Max` is not 0, `Producer.RequiredAcks`
is `WaitForAll`, and `Net.MaxOpenRequests` is not above 1. -/
def Sarama.idempotentChecks (c : Config) : Bool :=
  !c.Producer.Idempotent ||
    (Sarama.IsAtLeast c.Version Sarama.V0_11_0_0 &&
     c.Producer.Retry.Max != 0 &&
     c.Producer.RequiredAcks == Sarama.WaitForAll &&
     decide (c.Net.MaxOpenRequests ≤ 1))

/-- The check of the library on the SASL settings in `Config.Validate`: nothing when SASL
is disabled; when it is enabled an empty mechanism is read as `PLAIN`, and `PLAIN` needs
a non-empty user and a non-empty password.  The other mechanisms need settings the
program never makes (a token provider, a SCRAM client, Kerberos settings) and are
rejected. -/
def Sarama.saslChecks (c : Config) : Bool :=
  !c.Net.SASL.Enable ||
    ((c.Net.SASL.Mechanism == "" || c.Net.SASL.Mechanism == Sarama.SASLTypePlaintext) &&
     c.Net.SASL.User != "" && c.Net.SASL.Password != "")

/-- The library method `Config.Validate` as a test (`true`: it returns nil), on the
modelled fields; the fields that are not modelled are at their library defaults, which
pass.  In the order of the library: `Net.MaxOpenRequests > 0`, the SASL settings,
`Producer.RequiredAcks >= -1`, `Producer.Retry.Max >= 0`, the version needed by LZ4 and
by ZSTD compression, the idempotent producer, and `Consumer.Offsets.Initial` being
`OffsetOldest` or `OffsetNewest`. -/
def Sarama.Validate (c : Config) : Bool :=
  decide (0 < c.Net.MaxOpenRequests) &&
  Sarama.saslChecks c &&
  decide (-1 ≤ c.Producer.RequiredAcks) &&
  decide (0 ≤ c.Producer.Retry.Max) &&
  (c.Producer.Compression != Sarama.CompressionLZ4 ||
    Sarama.IsAtLeast c.Version Sarama.V0_10_0_0) &&
  (c.Producer.Compression != Sarama.CompressionZSTD ||
    Sarama.IsAtLeast c.Version Sarama.V2_1_0_0) &&
  Sarama.idempotentChecks c &&
  (c.Consumer.OffsetsInitial == Sarama.OffsetOldest ||
    c.Consumer.OffsetsInitial == Sarama.OffsetNewest)

/-- The check of the library when it opens a synchronous producer
(`verifyProducerConfig`): `Producer.Return.Errors` and `Producer.Return.Successes`. -/
def Sarama.verifyProducerConfig (c : Config) : Bool :=
  c.Producer.Return.Errors && c.Producer.Return.Successes

/-- The configuration checks `sarama.NewSyncProducer` makes before it connects:
`verifyProducerConfig`, then `Config.Validate` when it opens its client. -/
def Sarama.syncProducerOpenChecks (c : Config) : Bool :=
  Sarama.verifyProducerConfig c && Sarama.Validate c

/-- The initial offset of the client's configuration is one of the two the library
accepts. -/
def offsetsInitialKnown (kc : KafkaClient) : Prop :=
  kc.config.Consumer.OffsetsInitial = Sarama.OffsetOldest ∨
  kc.config.Consumer.OffsetsInitial = Sarama.OffsetNewest

/-- One call of a method of `KafkaClient`, with its arguments. -/
inductive Call where
  | newProducer
  | sendMessage (producer : SyncProducer) (topic key value : String)
  | listAllTopics
  | getTopicInfo (topic : String)
  | newConsumerGroup (groupID : String)
  | startConsumerGroup (groupID : String) (topics : List String) (ctx : Context)
  | listConsumerGroups
  | describeConsumerGroup (groupID : String)

/-- The client after one call. -/
def clientAfter (lib : Library) (kc : KafkaClient) : Call → KafkaClient
  | Call.newProducer => (NewProducer lib kc).client
  | Call.sendMessage producer topic key value => (SendMessage kc producer topic key value).client
  | Call.listAllTopics => (ListAllTopics lib kc).client
  | Call.getTopicInfo topic => (GetTopicInfo lib kc topic).client
  | Call.newConsumerGroup groupID => (NewConsumerGroup lib kc groupID).client
  | Call.startConsumerGroup groupID topics ctx =>
    (StartConsumerGroup lib kc groupID topics ctx).client
  | Call.listConsumerGroups => (ListConsumerGroups lib kc).client
  | Call.describeConsumerGroup groupID => (DescribeConsumerGroup lib kc groupID).client

/-- The client after a sequence of calls, first call first. -/
def clientAfterCalls (lib : Library) (kc : KafkaClient) (calls : List Call) : KafkaClient :=
  calls.foldl (clientAfter lib) kc

/-- What no method writes: the fields of the client, and in its configuration the
version, the SASL settings and `Producer.Return.Errors`. -/
def sameConstruction (a b : KafkaClient) : Prop :=
  a.brokers = b.brokers ∧ a.username = b.username ∧ a.password = b.password ∧
  a.config.Version = b.config.Version ∧ a.config.Net.SASL = b.config.Net.SASL ∧
  a.config.Producer.Return.Errors = b.config.Producer.Return.Errors

/-- One topic `t` whose partition list cannot be fetched: the library returns the nil
slice beside its error. -/
def lostPartitionsClient : Client :=
  { Topics := Except.ok ["t"],
    Partitions := fun _ => ([], some (Error.lib "kafka: unknown topic or partition")),
    GetOffset := fun _ _ _ => (0, none) }

/-- A producer whose every send succeeds at the given partition and offset. -/
def producerAt (partition offset : Int) : SyncProducer :=
  { SendMessage := fun _ => (partition, offset, none) }

/-- The records `ConsumeClaim` takes from `claim.Messages()`, as `select` outcomes. -/
def deliveries (records : List ConsumerMessage) : List SelectOutcome :=
  records.map (fun m => SelectOutcome.message (some m))

/-- What `ConsumeClaim` does with the records it takes: each is logged, then marked. -/
def handled (h : ConsumerGroupHandler) (records : List ConsumerMessage) : List Event :=
  (records.map (fun m =>
    [Event.log (LogLine.received h.name m), Event.markMessage m ""])).flatten

/-! ## Facts about `int64` and about traces -/

theorem wrap64_of_isInt64 (a : Int) (h : isInt64 a) : wrap64 a = a := by
  unfold isInt64 at h
  unfold wrap64
  omega

theorem add64_wrap64_sub64 (t n o : Int) :
    add64 (wrap64 t) (sub64 n o) = wrap64 (t + (n - o)) := by
  unfold add64 sub64 wrap64
  omega

theorem logged_append (xs ys : List Event) : logged (xs ++ ys) = logged xs ++ logged ys := by
  induction xs with
  | nil => rfl
  | cons e es ih => cases e <;> simp [logged, ih]

theorem listPartitionsLoop_total (client : Client) (topic : String) (ps : List Int) (t : Int) :
    (listPartitionsLoop client topic ps (wrap64 t)).1 =
      wrap64 (t + messageCount client topic ps) := by
  induction ps generalizing t with
  | nil => simp [listPartitionsLoop, messageCount]
  | cons p ps ih =>
    simp only [listPartitionsLoop, add64_wrap64_sub64, ih]
    simp [messageCount, newestOffset, oldestOffset, add_assoc]

theorem listPartitionsLoop_logged (client : Client) (topic : String) (ps : List Int) (t : Int) :
    logged (listPartitionsLoop client topic ps t).2 = [] := by
  induction ps generalizing t with
  | nil => rfl
  | cons p ps ih => simp [listPartitionsLoop, logged, ih]

theorem wrap64_zero : wrap64 0 = 0 := by decide

theorem listTopicsLoop_logged (client : Client) (topics : List String) :
    logged (listTopicsLoop client topics) =
      topics.map (fun t => LogLine.topicSummary t (client.Partitions t).1.length
        (wrap64 (messageCount client t (client.Partitions t).1))) := by
  induction topics with
  | nil => rfl
  | cons t ts ih =>
    have h := listPartitionsLoop_total client t (client.Partitions t).1 0
    rw [wrap64_zero, zero_add] at h
    simp [listTopicsLoop, logged, logged_append, listPartitionsLoop_logged, ih, h]

theorem topicInfoLoop_total (client : Client) (topic : String) (ps : List Int) (t : Int) :
    (topicInfoLoop client topic ps (wrap64 t)).1 =
      wrap64 (t + messageCount client topic ps) := by
  induction ps generalizing t with
  | nil => simp [topicInfoLoop, messageCount]
  | cons p ps ih =>
    simp only [topicInfoLoop, add64_wrap64_sub64, ih]
    simp [messageCount, newestOffset, oldestOffset, add_assoc]

theorem topicInfoLoop_logged (client : Client) (topic : String) (ps : List Int) (t : Int) :
    logged (topicInfoLoop client topic ps t).2 =
      ps.map (fun p => LogLine.partitionInfo p
        (wrap64 (newestOffset client topic p - oldestOffset client topic p))
        (oldestOffset client topic p) (wrap64 (newestOffset client topic p - 1))) := by
  induction ps generalizing t with
  | nil => rfl
  | cons p ps ih => simp [topicInfoLoop, logged, ih, sub64, newestOffset, oldestOffset]

theorem ListAllTopics_logged (lib : Library) (kc : KafkaClient) (client : Client)
    (topics : List String) (hc : lib.NewClient kc.brokers kc.config = Except.ok client)
    (ht : client.Topics = Except.ok topics) :
    logged (ListAllTopics lib kc).trace =
      LogLine.topicsHeader ::
        topics.map (fun t => LogLine.topicSummary t (client.Partitions t).1.length
          (wrap64 (messageCount client t (client.Partitions t).1))) ++
        [LogLine.topicsFooter] := by
  simp [ListAllTopics, hc, ht, logged, logged_append, listTopicsLoop_logged]

theorem GetTopicInfo_logged (lib : Library) (kc : KafkaClient) (client : Client)
    (topic : String) (partitions : List Int)
    (hc : lib.NewClient kc.brokers kc.config = Except.ok client)
    (hp : client.Partitions topic = (partitions, none)) :
    logged (GetTopicInfo lib kc topic).trace =
      LogLine.topicInfoHeader topic ::
        partitions.map (fun p => LogLine.partitionInfo p
          (wrap64 (newestOffset client topic p - oldestOffset client topic p))
          (oldestOffset client topic p) (wrap64 (newestOffset client topic p - 1))) ++
        [LogLine.topicTotal (wrap64 (messageCount client topic partitions)),
         LogLine.topicInfoFooter] := by
  have h := topicInfoLoop_total client topic partitions 0
  rw [wrap64_zero, zero_add] at h
  simp [GetTopicInfo, hc, hp, logged, logged_append, topicInfoLoop_logged, h]

theorem messageCount_nonneg (client : Client) (topic : String) (ps : List Int)
    (h : ∀ p ∈ ps, oldestOffset client topic p ≤ newestOffset client topic p) :
    0 ≤ messageCount client topic ps := by
  unfold messageCount
  apply List.sum_nonneg
  intro x hx
  obtain ⟨p, hp, rfl⟩ := List.mem_map.mp hx
  have := h p hp
  omega

/-! ## Message counts (C1, C2) -/

/-- C1: when the metadata connection opens and the topic list (for `ListAllTopics`) or the
partition list (for `GetTopicInfo`) is returned, the total logged for a topic is the sum
over its partitions of `newest - oldest` wrapped to `int64`, the count `GetTopicInfo`
logs for a partition is the single term `newest - oldest`, and the total of an empty
partition list is 0. -/
theorem message_count_is_offset_sum (lib : Library) (kc : KafkaClient) (client : Client)
    (topics : List String) (topic : String) (partitions : List Int)
    (hc : lib.NewClient kc.brokers kc.config = Except.ok client)
    (ht : client.Topics = Except.ok topics)
    (hp : client.Partitions topic = (partitions, none)) :
    (ListAllTopics lib kc).ret = none ∧
    logged (ListAllTopics lib kc).trace =
      LogLine.topicsHeader ::
        topics.map (fun t => LogLine.topicSummary t (client.Partitions t).1.length
          (wrap64 (messageCount client t (client.Partitions t).1))) ++
        [LogLine.topicsFooter] ∧
    (GetTopicInfo lib kc topic).ret = none ∧
    logged (GetTopicInfo lib kc topic).trace =
      LogLine.topicInfoHeader topic ::
        partitions.map (fun p => LogLine.partitionInfo p
          (wrap64 (newestOffset client topic p - oldestOffset client topic p))
          (oldestOffset client topic p) (wrap64 (newestOffset client topic p - 1))) ++
        [LogLine.topicTotal (wrap64 (messageCount client topic partitions)),
         LogLine.topicInfoFooter] ∧
    (listPartitionsLoop client topic [] 0).1 = 0 ∧
    (topicInfoLoop client topic [] 0).1 = 0 := by
  refine ⟨?_, ListAllTopics_logged lib kc client topics hc ht, ?_,
    GetTopicInfo_logged lib kc client topic partitions hc hp, rfl, rfl⟩
  · simp [ListAllTopics, hc, ht]
  · simp [GetTopicInfo, hc, hp]

/-- C1 at `healthyClient`: topic `t`, partitions 0 and 1 with five messages each. -/
theorem message_count_is_offset_sum_witness :
    (libraryOf healthyClient).NewClient plainClient.brokers plainClient.config =
      Except.ok healthyClient ∧
    healthyClient.Topics = Except.ok ["t"] ∧
    healthyClient.Partitions "t" = ([0, 1], none) ∧
    logged (ListAllTopics (libraryOf healthyClient) plainClient).trace =
      [LogLine.topicsHeader, LogLine.topicSummary "t" 2 10, LogLine.topicsFooter] ∧
    logged (GetTopicInfo (libraryOf healthyClient) plainClient "t").trace =
      [LogLine.topicInfoHeader "t", LogLine.partitionInfo 0 5 0 4,
       LogLine.partitionInfo 1 5 1 5, LogLine.topicTotal 10, LogLine.topicInfoFooter] := by
  have h := message_count_is_offset_sum (libraryOf healthyClient) plainClient healthyClient
    ["t"] "t" [0, 1] rfl rfl rfl
  refine ⟨rfl, rfl, rfl, ?_, ?_⟩
  · rw [h.2.1]; decide
  · rw [h.2.2.2.1]; decide

/-- C2 fails: with oldest offset 5 and a failed newest lookup that returns `-1` (its error
discarded), both methods return nil and log the total `-6`. -/
theorem message_count_negative :
    (ListAllTopics (libraryOf lostNewestClient) plainClient).ret = none ∧
    logged (ListAllTopics (libraryOf lostNewestClient) plainClient).trace =
      [LogLine.topicsHeader, LogLine.topicSummary "t" 1 (-6), LogLine.topicsFooter] ∧
    (GetTopicInfo (libraryOf lostNewestClient) plainClient "t").ret = none ∧
    logged (GetTopicInfo (libraryOf lostNewestClient) plainClient "t").trace =
      [LogLine.topicInfoHeader "t", LogLine.partitionInfo 0 (-6) 5 (-2),
       LogLine.topicTotal (-6), LogLine.topicInfoFooter] ∧
    ¬ ((0 : Int) ≤ -6) := by
  decide

/-- C2 amended: when every partition reports `oldest ≤ newest` and the exact sum of the
differences is below `2 ^ 63`, every total the two methods log is that exact sum and
is `≥ 0`. -/
theorem message_count_nonneg_of_ordered (lib : Library) (kc : KafkaClient) (client : Client)
    (topics : List String) (topic : String) (partitions : List Int)
    (hc : lib.NewClient kc.brokers kc.config = Except.ok client)
    (ht : client.Topics = Except.ok topics)
    (hp : client.Partitions topic = (partitions, none))
    (hordAll : ∀ t ∈ topics, ∀ p ∈ (client.Partitions t).1,
      oldestOffset client t p ≤ newestOffset client t p)
    (hfitAll : ∀ t ∈ topics, messageCount client t (client.Partitions t).1 < 2 ^ 63)
    (hord : ∀ p ∈ partitions, oldestOffset client topic p ≤ newestOffset client topic p)
    (hfit : messageCount client topic partitions < 2 ^ 63) :
    (∀ t n total, LogLine.topicSummary t n total ∈ logged (ListAllTopics lib kc).trace →
      total = messageCount client t (client.Partitions t).1 ∧ 0 ≤ total) ∧
    (∀ total, LogLine.topicTotal total ∈ logged (GetTopicInfo lib kc topic).trace →
      total = messageCount client topic partitions ∧ 0 ≤ total) := by
  constructor
  · intro t n total hmem
    rw [ListAllTopics_logged lib kc client topics hc ht] at hmem
    simp only [List.mem_cons, List.mem_append, List.mem_map, List.mem_singleton,
      false_or, or_false, reduceCtorEq, List.mem_nil_iff] at hmem
    obtain ⟨t', ht', heq⟩ := hmem
    injection heq with h1 h2 h3
    subst h1
    have hnn := messageCount_nonneg client t' _ (hordAll t' ht')
    have hw := wrap64_of_isInt64 _ ⟨by omega, hfitAll t' ht'⟩
    rw [hw] at h3
    exact ⟨h3.symm, by omega⟩
  · intro total hmem
    rw [GetTopicInfo_logged lib kc client topic partitions hc hp] at hmem
    simp only [List.mem_cons, List.mem_append, List.mem_map, List.mem_singleton,
      false_or, or_false, reduceCtorEq, exists_false, List.mem_nil_iff,
      LogLine.topicTotal.injEq, and_false] at hmem
    have hnn := messageCount_nonneg client topic partitions hord
    have hw := wrap64_of_isInt64 _ ⟨by omega, hfit⟩
    rw [hw] at hmem
    exact ⟨hmem, by omega⟩

/-- C2 amended at `healthyClient`: the totals logged are 10. -/
theorem message_count_nonneg_of_ordered_witness :
    (∀ t n total, LogLine.topicSummary t n total ∈
        logged (ListAllTopics (libraryOf healthyClient) plainClient).trace →
      total = messageCount healthyClient t (healthyClient.Partitions t).1 ∧ 0 ≤ total) ∧
    (∀ total, LogLine.topicTotal total ∈
        logged (GetTopicInfo (libraryOf healthyClient) plainClient "t").trace →
      total = messageCount healthyClient "t" [0, 1] ∧ 0 ≤ total) :=
  message_count_nonneg_of_ordered (libraryOf healthyClient) plainClient healthyClient
    ["t"] "t" [0, 1] rfl rfl rfl (by decide) (by decide) (by decide) (by decide)

/-! ## The configuration (C3, C9, C10) -/

theorem SendMessage_client (kc : KafkaClient) (producer : SyncProducer)
    (topic key value : String) : (SendMessage kc producer topic key value).client = kc := by
  unfold SendMessage
  dsimp only
  split <;> rfl

theorem ListAllTopics_client (lib : Library) (kc : KafkaClient) :
    (ListAllTopics lib kc).client = kc := by
  unfold ListAllTopics
  split
  · rfl
  · split <;> rfl

theorem GetTopicInfo_client (lib : Library) (kc : KafkaClient) (topic : String) :
    (GetTopicInfo lib kc topic).client = kc := by
  unfold GetTopicInfo
  split
  · rfl
  · split <;> rfl

theorem ListConsumerGroups_client (lib : Library) (kc : KafkaClient) :
    (ListConsumerGroups lib kc).client = kc := by
  unfold ListConsumerGroups
  split
  · rfl
  · split <;> rfl

theorem DescribeConsumerGroup_client (lib : Library) (kc : KafkaClient) (groupID : String) :
    (DescribeConsumerGroup lib kc groupID).client = kc := by
  unfold DescribeConsumerGroup
  split
  · rfl
  · split <;> rfl

theorem StartConsumerGroup_client (lib : Library) (kc : KafkaClient) (groupID : String)
    (topics : List String) (ctx : Context) :
    (StartConsumerGroup lib kc groupID topics ctx).client =
      (NewConsumerGroup lib kc groupID).client := by
  unfold StartConsumerGroup
  dsimp only
  split <;> rfl

theorem sameConstruction_clientAfter (lib : Library) (kc : KafkaClient) (c : Call) :
    sameConstruction (clientAfter lib kc c) kc := by
  cases c <;>
    simp [clientAfter, SendMessage_client, ListAllTopics_client, GetTopicInfo_client,
      ListConsumerGroups_client, DescribeConsumerGroup_client, StartConsumerGroup_client,
      sameConstruction, NewProducer, NewConsumerGroup, producerSettings, consumerSettings]

theorem sameConstruction_clientAfterCalls (lib : Library) (calls : List Call)
    (kc : KafkaClient) : sameConstruction (clientAfterCalls lib kc calls) kc := by
  induction calls generalizing kc with
  | nil => simp [clientAfterCalls, sameConstruction]
  | cons c cs ih =>
    have h1 := ih (clientAfter lib kc c)
    have h2 := sameConstruction_clientAfter lib kc c
    simp only [clientAfterCalls, List.foldl_cons] at h1 ⊢
    unfold sameConstruction at h1 h2 ⊢
    refine ⟨h1.1.trans h2.1, h1.2.1.trans h2.2.1, h1.2.2.1.trans h2.2.2.1,
      h1.2.2.2.1.trans h2.2.2.2.1, h1.2.2.2.2.1.trans h2.2.2.2.2.1,
      h1.2.2.2.2.2.trans h2.2.2.2.2.2⟩

/-- C3 fails: `NewProducer` and `NewConsumerGroup` write their settings through the
pointer `kc.config`, so the configuration the client holds differs after the call. -/
theorem config_changed_by_open :
    (NewProducer (libraryOf healthyClient) plainClient).client.config ≠ plainClient.config ∧
    (NewProducer (libraryOf healthyClient) plainClient).client.config.Producer.Idempotent
      = true ∧
    plainClient.config.Producer.Idempotent = false ∧
    (NewConsumerGroup (libraryOf healthyClient) plainClient "g").client.config
      ≠ plainClient.config ∧
    (StartConsumerGroup (libraryOf healthyClient) plainClient "g" ["t"] [true]).client.config
      ≠ plainClient.config := by
  decide

/-- C3 amended: the four reporter methods and `SendMessage` leave the client as it was;
`NewProducer` rewrites in the client's configuration only `Producer` (keeping
`Producer.Return.Errors`) and `Net.MaxOpenRequests`, `NewConsumerGroup` and
`StartConsumerGroup` only `Consumer`; and after any sequence of calls the brokers, the
credentials, the version and the SASL settings are those of the client it started from. -/
theorem config_frame (lib : Library) (kc : KafkaClient) (producer : SyncProducer)
    (topic key value groupID : String) (topics : List String) (ctx : Context)
    (calls : List Call) :
    (ListAllTopics lib kc).client = kc ∧
    (GetTopicInfo lib kc topic).client = kc ∧
    (ListConsumerGroups lib kc).client = kc ∧
    (DescribeConsumerGroup lib kc groupID).client = kc ∧
    (SendMessage kc producer topic key value).client = kc ∧
    ((NewProducer lib kc).client.config.Consumer = kc.config.Consumer ∧
     (NewProducer lib kc).client.config.Version = kc.config.Version ∧
     (NewProducer lib kc).client.config.Net.SASL = kc.config.Net.SASL ∧
     (NewProducer lib kc).client.config.Producer.Return.Errors =
       kc.config.Producer.Return.Errors) ∧
    ((NewConsumerGroup lib kc groupID).client.config.Producer = kc.config.Producer ∧
     (NewConsumerGroup lib kc groupID).client.config.Net = kc.config.Net ∧
     (NewConsumerGroup lib kc groupID).client.config.Version = kc.config.Version) ∧
    (StartConsumerGroup lib kc groupID topics ctx).client =
      (NewConsumerGroup lib kc groupID).client ∧
    sameConstruction (clientAfterCalls lib kc calls) kc := by
  refine ⟨ListAllTopics_client lib kc, GetTopicInfo_client lib kc topic,
    ListConsumerGroups_client lib kc, DescribeConsumerGroup_client lib kc groupID,
    SendMessage_client kc producer topic key value, ?_, ?_,
    StartConsumerGroup_client lib kc groupID topics ctx,
    sameConstruction_clientAfterCalls lib calls kc⟩
  · simp [NewProducer, producerSettings]
  · simp [NewConsumerGroup, consumerSettings]

theorem offsetsInitialKnown_clientAfter (lib : Library) (kc : KafkaClient) (c : Call)
    (h : offsetsInitialKnown kc) : offsetsInitialKnown (clientAfter lib kc c) := by
  cases c <;>
    simp [clientAfter, SendMessage_client, ListAllTopics_client, GetTopicInfo_client,
      ListConsumerGroups_client, DescribeConsumerGroup_client, StartConsumerGroup_client,
      offsetsInitialKnown, NewProducer, NewConsumerGroup, producerSettings,
      consumerSettings] <;>
    exact h

theorem offsetsInitialKnown_clientAfterCalls (lib : Library) (calls : List Call)
    (kc : KafkaClient) (h : offsetsInitialKnown kc) :
    offsetsInitialKnown (clientAfterCalls lib kc calls) := by
  induction calls generalizing kc with
  | nil => exact h
  | cons c cs ih =>
    simp only [clientAfterCalls, List.foldl_cons]
    exact ih (clientAfter lib kc c) (offsetsInitialKnown_clientAfter lib kc c h)

theorem NewKafkaClient_sasl (broker : List String) (username password : String) :
    (NewKafkaClient broker username password).config.Net.SASL =
      (if username ≠ "" then
        { Enable := true, Mechanism := "PLAIN", User := username, Password := password }
       else { Enable := false, Mechanism := "", User := "", Password := "" }) := by
  unfold NewKafkaClient
  by_cases h : username = "" <;> simp [h, Sarama.SASLTypePlaintext, Sarama.NewConfig]

theorem NewKafkaClient_offsetsInitialKnown (broker : List String)
    (username password : String) :
    offsetsInitialKnown (NewKafkaClient broker username password) := by
  unfold offsetsInitialKnown NewKafkaClient
  by_cases h : username = "" <;> simp [h, Sarama.NewConfig]

theorem idempotentChecks_producerSettings (c : Config)
    (hv : c.Version = Sarama.V4_0_0_0) :
    Sarama.idempotentChecks (producerSettings c) = true := by
  have hv3 : (producerSettings c).Version = Sarama.V4_0_0_0 := by
    simpa [producerSettings] using hv
  unfold Sarama.idempotentChecks
  rw [hv3]
  simp [producerSettings, Sarama.WaitForAll]
  decide

theorem Validate_producerSettings (c : Config) (hv : c.Version = Sarama.V4_0_0_0)
    (ho : c.Consumer.OffsetsInitial = Sarama.OffsetOldest ∨
      c.Consumer.OffsetsInitial = Sarama.OffsetNewest) :
    Sarama.Validate (producerSettings c) = Sarama.saslChecks c := by
  have hi := idempotentChecks_producerSettings c hv
  have hs : Sarama.saslChecks (producerSettings c) = Sarama.saslChecks c := by
    simp [Sarama.saslChecks, producerSettings]
  have hc : ((producerSettings c).Consumer.OffsetsInitial == Sarama.OffsetOldest ||
      (producerSettings c).Consumer.OffsetsInitial == Sarama.OffsetNewest) = true := by
    have : (producerSettings c).Consumer.OffsetsInitial = c.Consumer.OffsetsInitial := by
      simp [producerSettings]
    rw [this]
    rcases ho with ho | ho <;> simp [ho]
  have h1 : decide (0 < (producerSettings c).Net.MaxOpenRequests) = true := by
    simp [producerSettings]
  have h2 : decide (-1 ≤ (producerSettings c).Producer.RequiredAcks) = true := by
    simp [producerSettings, Sarama.WaitForAll]
  have h3 : decide (0 ≤ (producerSettings c).Producer.Retry.Max) = true := by
    simp [producerSettings]
  have h4 : ((producerSettings c).Producer.Compression != Sarama.CompressionLZ4 ||
      Sarama.IsAtLeast (producerSettings c).Version Sarama.V0_10_0_0) = true := by
    have : (producerSettings c).Producer.Compression = Sarama.CompressionSnappy := by
      simp [producerSettings]
    rw [this]
    have hne : (Sarama.CompressionSnappy != Sarama.CompressionLZ4) = true := by decide
    rw [hne]; rfl
  have h5 : ((producerSettings c).Producer.Compression != Sarama.CompressionZSTD ||
      Sarama.IsAtLeast (producerSettings c).Version Sarama.V2_1_0_0) = true := by
    have : (producerSettings c).Producer.Compression = Sarama.CompressionSnappy := by
      simp [producerSettings]
    rw [this]
    have hne : (Sarama.CompressionSnappy != Sarama.CompressionZSTD) = true := by decide
    rw [hne]; rfl
  unfold Sarama.Validate
  rw [h1, hs, h2, h3, h4, h5, hi, hc]
  simp

/-- C9 fails: built with the username `admin` and an empty password, the client has SASL
enabled with an empty password, and the configuration `NewProducer` hands to the open
of the synchronous producer does not pass the validation of the library, although it
has the idempotent settings. -/
theorem producer_config_rejected :
    (NewProducer (libraryOf healthyClient) (NewKafkaClient ["b1:9092"] "admin" "")).trace =
      [Event.newSyncProducer ["b1:9092"]
        (producerSettings (NewKafkaClient ["b1:9092"] "admin" "").config)] ∧
    (producerSettings (NewKafkaClient ["b1:9092"] "admin" "").config).Net.SASL =
      { Enable := true, Mechanism := "PLAIN", User := "admin", Password := "" } ∧
    Sarama.idempotentChecks
      (producerSettings (NewKafkaClient ["b1:9092"] "admin" "").config) = true ∧
    Sarama.Validate (producerSettings (NewKafkaClient ["b1:9092"] "admin" "").config)
      = false ∧
    Sarama.syncProducerOpenChecks
      (producerSettings (NewKafkaClient ["b1:9092"] "admin" "").config) = false := by
  decide

/-- C9 amended: for a client built by `NewKafkaClient`, after any sequence of calls,
`NewProducer` issues exactly one library call, the open of a synchronous producer on the
client's brokers, and returns its result; the configuration it hands over has
`RequiredAcks = WaitForAll`, `Idempotent`, `Retry.Max = 10`, `Return.Successes`,
`Net.MaxOpenRequests = 1` and the version `V4_0_0_0` set at construction, so it passes
the checks of the library that are particular to an idempotent producer and to a
synchronous producer; it passes all the configuration checks of the open exactly when
the username is empty or the password is not. -/
theorem producer_config_settings (lib : Library) (broker : List String)
    (username password : String) (calls : List Call) :
    ∃ cfg : Config,
      (NewProducer lib (clientAfterCalls lib (NewKafkaClient broker username password)
        calls)).trace = [Event.newSyncProducer broker cfg] ∧
      (NewProducer lib (clientAfterCalls lib (NewKafkaClient broker username password)
        calls)).ret = lib.NewSyncProducer broker cfg ∧
      cfg.Producer.RequiredAcks = Sarama.WaitForAll ∧
      cfg.Producer.Idempotent = true ∧
      cfg.Producer.Retry.Max = 10 ∧ 1 ≤ cfg.Producer.Retry.Max ∧
      cfg.Producer.Return.Successes = true ∧
      cfg.Net.MaxOpenRequests = 1 ∧
      cfg.Version = Sarama.V4_0_0_0 ∧
      Sarama.idempotentChecks cfg = true ∧
      Sarama.verifyProducerConfig cfg = true ∧
      (Sarama.Validate cfg = true ↔ (username = "" ∨ password ≠ "")) ∧
      (Sarama.syncProducerOpenChecks cfg = true ↔ (username = "" ∨ password ≠ "")) := by
  have h := sameConstruction_clientAfterCalls lib calls (NewKafkaClient broker username password)
  obtain ⟨hb, -, -, hv, hs, he⟩ := h
  have ho := offsetsInitialKnown_clientAfterCalls lib calls
    (NewKafkaClient broker username password)
    (NewKafkaClient_offsetsInitialKnown broker username password)
  have hb2 : (NewKafkaClient broker username password).brokers = broker := rfl
  have hv2 : (NewKafkaClient broker username password).config.Version = Sarama.V4_0_0_0 := by
    unfold NewKafkaClient; split <;> rfl
  have he2 : (NewKafkaClient broker username password).config.Producer.Return.Errors
      = true := by
    unfold NewKafkaClient; split <;> rfl
  have hs2 := hs.trans (NewKafkaClient_sasl broker username password)
  have hver : Sarama.verifyProducerConfig (producerSettings (clientAfterCalls lib
      (NewKafkaClient broker username password) calls).config) = true := by
    have he3 : (producerSettings (clientAfterCalls lib
        (NewKafkaClient broker username password) calls).config).Producer.Return.Errors
        = true := by
      simpa [producerSettings] using he.trans he2
    unfold Sarama.verifyProducerConfig
    rw [he3]
    simp [producerSettings]
  have hval : (Sarama.Validate (producerSettings (clientAfterCalls lib
      (NewKafkaClient broker username password) calls).config) = true ↔
      (username = "" ∨ password ≠ "")) := by
    rw [Validate_producerSettings _ (hv.trans hv2) ho]
    unfold Sarama.saslChecks
    rw [hs2]
    by_cases hu : username = "" <;> simp [hu, Sarama.SASLTypePlaintext]
  refine ⟨producerSettings
    (clientAfterCalls lib (NewKafkaClient broker username password) calls).config, ?_, ?_,
    rfl, rfl, rfl, by simp [producerSettings], rfl, rfl, ?_,
    idempotentChecks_producerSettings _ (hv.trans hv2), hver, hval, ?_⟩
  · simp [NewProducer, hb, hb2]
  · simp [NewProducer, hb, hb2]
  · simpa [producerSettings] using hv.trans hv2
  · unfold Sarama.syncProducerOpenChecks
    rw [hver]
    simpa using hval

/-- C10: `NewKafkaClient` is total; the client stores the brokers, the username and the
password unchanged; SASL is enabled in its configuration exactly when the username is
not empty; then the SASL settings are enabled, `PLAIN`, that username and that password;
with an empty username the SASL settings are the library defaults (disabled, no user, no
password), whatever the password. -/
theorem new_client_sasl (broker : List String) (username password : String) :
    (NewKafkaClient broker username password).brokers = broker ∧
    (NewKafkaClient broker username password).username = username ∧
    (NewKafkaClient broker username password).password = password ∧
    ((NewKafkaClient broker username password).config.Net.SASL.Enable = true ↔
      username ≠ "") ∧
    (NewKafkaClient broker username password).config.Net.SASL =
      (if username ≠ "" then
        { Enable := true, Mechanism := "PLAIN", User := username, Password := password }
       else Sarama.NewConfig.Net.SASL) ∧
    (NewKafkaClient broker "" password).config.Net.SASL =
      { Enable := false, Mechanism := "", User := "", Password := "" } ∧
    (NewKafkaClient broker username password).config.Version = Sarama.V4_0_0_0 := by
  refine ⟨rfl, rfl, rfl, ?_, ?_, rfl, ?_⟩
  · unfold NewKafkaClient
    by_cases h : username = "" <;> simp [h, Sarama.NewConfig]
  · unfold NewKafkaClient
    by_cases h : username = "" <;> simp [h, Sarama.SASLTypePlaintext]
  · unfold NewKafkaClient
    split <;> rfl

/-! ## Errors of the reporter methods (C4) -/

/-- C4 fails: `ListAllTopics` and `GetTopicInfo` return nil although an offset lookup they
issued was rejected, and `ListAllTopics` returns nil although the partition list of a
topic was rejected. -/
theorem lookup_error_discarded :
    (ListAllTopics (libraryOf lostNewestClient) plainClient).ret = none ∧
    Event.getOffset "t" 0 Sarama.OffsetNewest ∈
      (ListAllTopics (libraryOf lostNewestClient) plainClient).trace ∧
    (GetTopicInfo (libraryOf lostNewestClient) plainClient "t").ret = none ∧
    Event.getOffset "t" 0 Sarama.OffsetNewest ∈
      (GetTopicInfo (libraryOf lostNewestClient) plainClient "t").trace ∧
    (lostNewestClient.GetOffset "t" 0 Sarama.OffsetNewest).2 ≠ none ∧
    (ListAllTopics (libraryOf lostPartitionsClient) plainClient).ret = none ∧
    Event.partitions "t" ∈ (ListAllTopics (libraryOf lostPartitionsClient) plainClient).trace ∧
    (lostPartitionsClient.Partitions "t").2 ≠ none := by
  decide

/-- C4 amended: each reporter method returns the wrapped error of the connection it opens
or of its one checked request (the topic list for `ListAllTopics`, the partition list
for `GetTopicInfo`, list groups, describe groups) and nil otherwise; so it returns nil
exactly when the connection opened and that request succeeded, whatever the lookups
whose error it discards reported. -/
theorem reporter_error_iff (lib : Library) (kc : KafkaClient) (topic groupID : String) :
    ((ListAllTopics lib kc).ret =
      match lib.NewClient kc.brokers kc.config with
      | Except.error err => some (Error.errorf "创建客户端失败: %w" err)
      | Except.ok client =>
        match client.Topics with
        | Except.error err => some (Error.errorf "获取 topics 失败: %w" err)
        | Except.ok _ => none) ∧
    ((ListAllTopics lib kc).ret = none ↔
      ∃ client topics, lib.NewClient kc.brokers kc.config = Except.ok client ∧
        client.Topics = Except.ok topics) ∧
    ((GetTopicInfo lib kc topic).ret =
      match lib.NewClient kc.brokers kc.config with
      | Except.error err => some (Error.errorf "创建客户端失败:%w" err)
      | Except.ok client =>
        match (client.Partitions topic).2 with
        | some err => some (Error.errorf "获取分区失败: %w" err)
        | none => none) ∧
    ((GetTopicInfo lib kc topic).ret = none ↔
      ∃ client, lib.NewClient kc.brokers kc.config = Except.ok client ∧
        (client.Partitions topic).2 = none) ∧
    ((ListConsumerGroups lib kc).ret =
      match lib.NewClusterAdmin kc.brokers kc.config with
      | Except.error err => some (Error.errorf "创建管理客户端失败: %w" err)
      | Except.ok admin =>
        match admin.ListConsumerGroups with
        | Except.error err => some (Error.errorf "获取消费者组失败: %w" err)
        | Except.ok _ => none) ∧
    ((ListConsumerGroups lib kc).ret = none ↔
      ∃ admin groups, lib.NewClusterAdmin kc.brokers kc.config = Except.ok admin ∧
        admin.ListConsumerGroups = Except.ok groups) ∧
    ((DescribeConsumerGroup lib kc groupID).ret =
      match lib.NewClusterAdmin kc.brokers kc.config with
      | Except.error err => some (Error.errorf "创建管理客户端失败: %w" err)
      | Except.ok admin =>
        match admin.DescribeConsumerGroups [groupID] with
        | Except.error err => some (Error.errorf "获取消费者组详情失败: %w" err)
        | Except.ok _ => none) ∧
    ((DescribeConsumerGroup lib kc groupID).ret = none ↔
      ∃ admin groups, lib.NewClusterAdmin kc.brokers kc.config = Except.ok admin ∧
        admin.DescribeConsumerGroups [groupID] = Except.ok groups) := by
  refine ⟨?_, ?_, ?_, ?_, ?_, ?_, ?_, ?_⟩
  · unfold ListAllTopics
    cases lib.NewClient kc.brokers kc.config with
    | error err => rfl
    | ok client => cases hT : client.Topics <;> simp [hT]
  · unfold ListAllTopics
    cases lib.NewClient kc.brokers kc.config with
    | error err => simp
    | ok client => cases hT : client.Topics <;> simp [hT]
  · unfold GetTopicInfo
    cases lib.NewClient kc.brokers kc.config with
    | error err => rfl
    | ok client =>
      rcases hP : client.Partitions topic with ⟨ps, _ | err⟩ <;> simp [hP]
  · unfold GetTopicInfo
    cases lib.NewClient kc.brokers kc.config with
    | error err => simp
    | ok client =>
      rcases hP : client.Partitions topic with ⟨ps, _ | err⟩ <;> simp [hP]
  · unfold ListConsumerGroups
    cases lib.NewClusterAdmin kc.brokers kc.config with
    | error err => rfl
    | ok admin => cases hG : admin.ListConsumerGroups <;> simp [hG]
  · unfold ListConsumerGroups
    cases lib.NewClusterAdmin kc.brokers kc.config with
    | error err => simp
    | ok admin => cases hG : admin.ListConsumerGroups <;> simp [hG]
  · unfold DescribeConsumerGroup
    cases lib.NewClusterAdmin kc.brokers kc.config with
    | error err => rfl
    | ok admin => cases hG : admin.DescribeConsumerGroups [groupID] <;> simp [hG]
  · unfold DescribeConsumerGroup
    cases lib.NewClusterAdmin kc.brokers kc.config with
    | error err => simp
    | ok admin => cases hG : admin.DescribeConsumerGroups [groupID] <;> simp [hG]

/-! ## Sending (C5, C8) -/

/-- C5 fails: the result of `SendMessage` is an `error` only; two producers that report
different partitions and offsets give the caller the same result, nil. -/
theorem send_position_not_returned :
    (producerAt 0 0).SendMessage { Topic := "t", Key := "k", Value := "v" } = (0, 0, none) ∧
    (producerAt 3 41).SendMessage { Topic := "t", Key := "k", Value := "v" } = (3, 41, none) ∧
    (SendMessage plainClient (producerAt 0 0) "t" "k" "v").ret = none ∧
    (SendMessage plainClient (producerAt 3 41) "t" "k" "v").ret = none ∧
    (SendMessage plainClient (producerAt 0 0) "t" "k" "v").ret =
      (SendMessage plainClient (producerAt 3 41) "t" "k" "v").ret := by
  decide

/-- C5 amended: when the send of the producer succeeds at `(partition, offset)`,
`SendMessage` returns nil and logs that partition and that offset in one line. -/
theorem send_position_logged (kc : KafkaClient) (producer : SyncProducer)
    (topic key value : String) (partition offset : Int)
    (h : producer.SendMessage { Topic := topic, Key := key, Value := value } =
      (partition, offset, none)) :
    (SendMessage kc producer topic key value).ret = none ∧
    logged (SendMessage kc producer topic key value).trace =
      [LogLine.messageSent partition offset] := by
  simp [SendMessage, h, logged]

/-- C5 amended at a producer that reports partition 3, offset 41. -/
theorem send_position_logged_witness :
    (producerAt 3 41).SendMessage { Topic := "t", Key := "k", Value := "v" } = (3, 41, none) ∧
    (SendMessage plainClient (producerAt 3 41) "t" "k" "v").ret = none ∧
    logged (SendMessage plainClient (producerAt 3 41) "t" "k" "v").trace =
      [LogLine.messageSent 3 41] :=
  ⟨rfl, send_position_logged plainClient (producerAt 3 41) "t" "k" "v" 3 41 rfl⟩

/-- C8: `SendMessage` issues exactly one send, of the message with the given topic, key
and value, and returns the error of that send: the producer's error when it fails, nil
when it succeeds, so it returns an error exactly when the send did; a failed send logs
nothing and the method makes no other library call. -/
theorem send_once (kc : KafkaClient) (producer : SyncProducer) (topic key value : String) :
    sends (SendMessage kc producer topic key value).trace =
      [{ Topic := topic, Key := key, Value := value }] ∧
    (SendMessage kc producer topic key value).ret =
      (producer.SendMessage { Topic := topic, Key := key, Value := value }).2.2 ∧
    ((SendMessage kc producer topic key value).ret ≠ none ↔
      (producer.SendMessage { Topic := topic, Key := key, Value := value }).2.2 ≠ none) ∧
    ((SendMessage kc producer topic key value).ret = none ↔
      (producer.SendMessage { Topic := topic, Key := key, Value := value }).2.2 = none) ∧
    ((SendMessage kc producer topic key value).trace =
        [Event.producerSend { Topic := topic, Key := key, Value := value }] ∨
     ∃ partition offset, (SendMessage kc producer topic key value).trace =
        [Event.producerSend { Topic := topic, Key := key, Value := value },
         Event.log (LogLine.messageSent partition offset)]) := by
  rcases h : producer.SendMessage { Topic := topic, Key := key, Value := value } with
    ⟨partition, offset, _ | err⟩ <;> simp [SendMessage, h, sends]

/-! ## The run loop of a consumer group (C6) -/

theorem consumeLoop_stopped (groupID : String) (topics : List String)
    (handler : ConsumerGroupHandler) (k : Nat) (rest : Context) (results : List GoError) :
    consumeLoop groupID topics handler (List.replicate k false ++ true :: rest)
        (List.replicate k none ++ results) =
      (some none, List.replicate k (Event.consume topics handler) ++
        [Event.log (LogLine.groupStopped groupID)]) := by
  induction k with
  | zero => simp [consumeLoop]
  | succ k ih => simp [List.replicate_succ, consumeLoop, ih]

theorem consumeLoop_failed (groupID : String) (topics : List String)
    (handler : ConsumerGroupHandler) (k : Nat) (rest : Context) (results : List GoError)
    (e : Error) :
    consumeLoop groupID topics handler (List.replicate (k + 1) false ++ rest)
        (List.replicate k none ++ some e :: results) =
      (some (some e), List.replicate (k + 1) (Event.consume topics handler) ++
        [Event.log (LogLine.consumeFailed groupID e)]) := by
  induction k with
  | zero => simp [consumeLoop]
  | succ k ih =>
    rw [List.replicate_succ] at ih ⊢
    simp only [List.replicate_succ, List.cons_append, consumeLoop] at ih ⊢
    simp [consumeLoop, ih]

theorem consumeLoop_polling (groupID : String) (topics : List String)
    (handler : ConsumerGroupHandler) (k : Nat) (results : List GoError) :
    consumeLoop groupID topics handler (List.replicate k false)
        (List.replicate k none ++ results) =
      (none, List.replicate k (Event.consume topics handler)) := by
  induction k with
  | zero => simp [consumeLoop]
  | succ k ih => simp [List.replicate_succ, consumeLoop, ih]

theorem consumeLoop_consuming (groupID : String) (topics : List String)
    (handler : ConsumerGroupHandler) (k : Nat) (rest : Context) :
    consumeLoop groupID topics handler (List.replicate (k + 1) false ++ rest)
        (List.replicate k none) =
      (none, List.replicate (k + 1) (Event.consume topics handler)) := by
  induction k with
  | zero => simp [consumeLoop]
  | succ k ih =>
    rw [List.replicate_succ] at ih ⊢
    simp only [List.replicate_succ, List.cons_append, consumeLoop] at ih ⊢
    simp [consumeLoop, ih]

theorem consumeLoop_nil_iff (groupID : String) (topics : List String)
    (handler : ConsumerGroupHandler) (ctx : Context) (results : List GoError) :
    (consumeLoop groupID topics handler ctx results).1 = some none ↔
      ∃ k rest tail, ctx = List.replicate k false ++ true :: rest ∧
        results = List.replicate k none ++ tail := by
  constructor
  · intro h
    induction ctx generalizing results with
    | nil => simp [consumeLoop] at h
    | cons b ctx ih =>
      cases b with
      | true => exact ⟨0, ctx, results, by simp, by simp⟩
      | false =>
        match results, h with
        | [], h => simp [consumeLoop] at h
        | some err :: rs, h => simp [consumeLoop] at h
        | none :: rs, h =>
          simp only [consumeLoop] at h
          obtain ⟨k, rest, tail, h1, h2⟩ := ih rs h
          exact ⟨k + 1, rest, tail, by simp [List.replicate_succ, h1],
            by simp [List.replicate_succ, h2]⟩
  · rintro ⟨k, rest, tail, rfl, rfl⟩
    rw [consumeLoop_stopped]

theorem consumeLoop_error_iff (groupID : String) (topics : List String)
    (handler : ConsumerGroupHandler) (ctx : Context) (results : List GoError) (e : Error) :
    (consumeLoop groupID topics handler ctx results).1 = some (some e) ↔
      ∃ k rest tail, ctx = List.replicate (k + 1) false ++ rest ∧
        results = List.replicate k none ++ some e :: tail := by
  constructor
  · intro h
    induction ctx generalizing results with
    | nil => simp [consumeLoop] at h
    | cons b ctx ih =>
      cases b with
      | true => simp [consumeLoop] at h
      | false =>
        match results, h with
        | [], h => simp [consumeLoop] at h
        | some err :: rs, h =>
          simp only [consumeLoop, Option.some.injEq] at h
          subst h
          exact ⟨0, ctx, rs, by simp, by simp⟩
        | none :: rs, h =>
          simp only [consumeLoop] at h
          obtain ⟨k, rest, tail, h1, h2⟩ := ih rs h
          exact ⟨k + 1, rest, tail, by simp [List.replicate_succ, h1],
            by simp [List.replicate_succ, h2]⟩
  · rintro ⟨k, rest, tail, rfl, rfl⟩
    rw [consumeLoop_failed]

theorem consumeCalls_replicate (topics : List String) (handler : ConsumerGroupHandler)
    (k : Nat) (tail : List Event) :
    consumeCalls (List.replicate k (Event.consume topics handler) ++ tail) =
      k + consumeCalls tail := by
  induction k with
  | zero => simp
  | succ k ih => simp [List.replicate_succ, consumeCalls, ih]; omega

/-- C6: `StartConsumerGroup` returns the wrapped error of a failed open after the open as
its only library call; after a successful open it returns what the run loop returns and
closes the group when the loop returns.  The loop returns nil exactly when, after `k`
iterations that found the context open and whose `Consume` returned nil, it finds the
context done, having issued `k` `Consume` calls and none after; it returns `e` exactly
when the first failing `Consume`, its `k + 1`-th call, returned `e`, and issues none
after; otherwise it has not returned and every `Consume` that returned nil with the
context open was followed by the next call. -/
theorem run_loop_state_machine (lib : Library) (kc : KafkaClient) (groupID : String)
    (topics : List String) (handler : ConsumerGroupHandler) (ctx rest : Context)
    (results tail : List GoError) (k : Nat) (e : Error) :
    ((StartConsumerGroup lib kc groupID topics ctx).ret =
      match lib.NewConsumerGroup kc.brokers groupID (consumerSettings kc.config) with
      | Except.error err => some (some (Error.errorf "创建消费者组失败: %w" err))
      | Except.ok cg => (consumeLoop groupID topics { name := groupID } ctx cg.Consume).1) ∧
    ((StartConsumerGroup lib kc groupID topics ctx).trace =
      match lib.NewConsumerGroup kc.brokers groupID (consumerSettings kc.config) with
      | Except.error _ =>
        [Event.newConsumerGroup kc.brokers groupID (consumerSettings kc.config)]
      | Except.ok cg =>
        Event.newConsumerGroup kc.brokers groupID (consumerSettings kc.config) ::
          Event.log (LogLine.groupStarted groupID topics) ::
          (consumeLoop groupID topics { name := groupID } ctx cg.Consume).2 ++
          (if (consumeLoop groupID topics { name := groupID } ctx cg.Consume).1.isSome
            then [Event.groupClose] else [])) ∧
    consumeLoop groupID topics handler (List.replicate k false ++ true :: rest)
        (List.replicate k none ++ tail) =
      (some none, List.replicate k (Event.consume topics handler) ++
        [Event.log (LogLine.groupStopped groupID)]) ∧
    consumeLoop groupID topics handler (List.replicate (k + 1) false ++ rest)
        (List.replicate k none ++ some e :: tail) =
      (some (some e), List.replicate (k + 1) (Event.consume topics handler) ++
        [Event.log (LogLine.consumeFailed groupID e)]) ∧
    consumeLoop groupID topics handler (List.replicate k false)
        (List.replicate k none ++ tail) =
      (none, List.replicate k (Event.consume topics handler)) ∧
    consumeLoop groupID topics handler (List.replicate (k + 1) false ++ rest)
        (List.replicate k none) =
      (none, List.replicate (k + 1) (Event.consume topics handler)) ∧
    ((consumeLoop groupID topics handler ctx results).1 = some none ↔
      ∃ k rest tail, ctx = List.replicate k false ++ true :: rest ∧
        results = List.replicate k none ++ tail) ∧
    ((consumeLoop groupID topics handler ctx results).1 = some (some e) ↔
      ∃ k rest tail, ctx = List.replicate (k + 1) false ++ rest ∧
        results = List.replicate k none ++ some e :: tail) ∧
    consumeCalls (consumeLoop groupID topics handler (List.replicate k false ++ true :: rest)
      (List.replicate k none ++ tail)).2 = k ∧
    consumeCalls (consumeLoop groupID topics handler (List.replicate (k + 1) false ++ rest)
      (List.replicate k none ++ some e :: tail)).2 = k + 1 := by
  refine ⟨?_, ?_, consumeLoop_stopped groupID topics handler k rest tail,
    consumeLoop_failed groupID topics handler k rest tail e,
    consumeLoop_polling groupID topics handler k tail,
    consumeLoop_consuming groupID topics handler k rest,
    consumeLoop_nil_iff groupID topics handler ctx results,
    consumeLoop_error_iff groupID topics handler ctx results e, ?_, ?_⟩
  · unfold StartConsumerGroup NewConsumerGroup
    dsimp only
    split <;> rfl
  · unfold StartConsumerGroup NewConsumerGroup
    dsimp only
    split <;> simp
  · rw [consumeLoop_stopped, consumeCalls_replicate]; simp [consumeCalls]
  · rw [consumeLoop_failed, consumeCalls_replicate]; simp [consumeCalls]

/-! ## The bundled handler (C7) -/

theorem ConsumeClaim_deliveries (h : ConsumerGroupHandler) (records : List ConsumerMessage)
    (script : List SelectOutcome) :
    ConsumerGroupHandler.ConsumeClaim h (deliveries records ++ script) =
      ((ConsumerGroupHandler.ConsumeClaim h script).1,
       handled h records ++ (ConsumerGroupHandler.ConsumeClaim h script).2) := by
  induction records with
  | nil => simp [deliveries, handled]
  | cons m ms ih =>
    simp only [deliveries, handled, List.map_cons, List.cons_append,
      ConsumerGroupHandler.ConsumeClaim, List.flatten_cons] at ih ⊢
    simp [ih]

theorem marks_handled (h : ConsumerGroupHandler) (records : List ConsumerMessage) :
    marks (handled h records) = records := by
  induction records with
  | nil => rfl
  | cons m ms ih =>
    have hstep : handled h (m :: ms) =
        Event.log (LogLine.received h.name m) :: Event.markMessage m "" :: handled h ms := by
      simp [handled]
    rw [hstep]
    simp only [marks, ih]

theorem script_shape (script : List SelectOutcome) :
    ∃ records rest, script = deliveries records ∨
      script = deliveries records ++ SelectOutcome.message none :: rest ∨
      script = deliveries records ++ SelectOutcome.done :: rest := by
  induction script with
  | nil => exact ⟨[], [], Or.inl rfl⟩
  | cons o os ih =>
    match o with
    | SelectOutcome.done => exact ⟨[], os, Or.inr (Or.inr rfl)⟩
    | SelectOutcome.message none => exact ⟨[], os, Or.inr (Or.inl rfl)⟩
    | SelectOutcome.message (some m) =>
      obtain ⟨records, rest, h | h | h⟩ := ih
      · exact ⟨m :: records, rest, Or.inl (by simp [deliveries, h])⟩
      · exact ⟨m :: records, rest, Or.inr (Or.inl (by simp [deliveries, h]))⟩
      · exact ⟨m :: records, rest, Or.inr (Or.inr (by simp [deliveries, h]))⟩

theorem ConsumeClaim_no_error (h : ConsumerGroupHandler) (script : List SelectOutcome)
    (e : Error) : (ConsumerGroupHandler.ConsumeClaim h script).1 ≠ some (some e) := by
  induction script with
  | nil => simp [ConsumerGroupHandler.ConsumeClaim]
  | cons o os ih =>
    match o with
    | SelectOutcome.done => simp [ConsumerGroupHandler.ConsumeClaim]
    | SelectOutcome.message none => simp [ConsumerGroupHandler.ConsumeClaim]
    | SelectOutcome.message (some m) => simpa [ConsumerGroupHandler.ConsumeClaim] using ih

/-- C7: having taken the records `records` from its claim, the handler has logged and then
marked each of them once, in the order received (the marked records are `records`); a
nil record or a done session context then makes it return nil with no further mark,
whatever follows; until then it has not returned; it never returns an error; and every
sequence of `select` outcomes is of one of these three shapes. -/
theorem handler_marks_in_order (h : ConsumerGroupHandler) (records : List ConsumerMessage)
    (rest script : List SelectOutcome) (e : Error) :
    ConsumerGroupHandler.ConsumeClaim h
        (deliveries records ++ SelectOutcome.message none :: rest) =
      (some none, handled h records) ∧
    ConsumerGroupHandler.ConsumeClaim h (deliveries records ++ SelectOutcome.done :: rest) =
      (some none, handled h records) ∧
    ConsumerGroupHandler.ConsumeClaim h (deliveries records) = (none, handled h records) ∧
    marks (handled h records) = records ∧
    (ConsumerGroupHandler.ConsumeClaim h script).1 ≠ some (some e) ∧
    (∃ records rest, script = deliveries records ∨
      script = deliveries records ++ SelectOutcome.message none :: rest ∨
      script = deliveries records ++ SelectOutcome.done :: rest) := by
  refine ⟨?_, ?_, ?_, marks_handled h records, ConsumeClaim_no_error h script e,
    script_shape script⟩
  · rw [ConsumeClaim_deliveries]; simp [ConsumerGroupHandler.ConsumeClaim]
  · rw [ConsumeClaim_deliveries]; simp [ConsumerGroupHandler.ConsumeClaim]
  · have := ConsumeClaim_deliveries h records []
    simpa [ConsumerGroupHandler.ConsumeClaim] using this

end Osctl
